import Mathlib

/-
  Verification of the "Lock Render Aspect Ratio" add-on (src/__init__.py).

  The add-on watches a scene render resolution (resolution_x, resolution_y)
  together with a per-scene property group (is_locked, locked_ratio,
  prev_res_x, prev_res_y) and a process-wide boolean flag
  _is_internally_updating_resolution.  The two callbacks modelled here are
  on_lock_toggle (lines 67-86) and resolution_changed (lines 89-136).

  Numbers: Blender resolutions are ints, the ratio is a Python float.  The
  embedding uses Int for resolutions and Rat for the ratio, so division is
  exact; Python round (banker rounding, half to even) is modelled by pyRound.
-/

/-- Python 3 round to the nearest integer, ties to even (banker rounding). -/
def pyRound (q : ℚ) : ℤ :=
  let n : ℤ := ⌊q⌋
  let r : ℚ := q - n
  if r < 1/2 then n
  else if 1/2 < r then n + 1
  else if n % 2 = 0 then n else n + 1

/-- The host scene render settings watched by the add-on. -/
structure RenderSettings where
  resolution_x : ℤ
  resolution_y : ℤ
deriving DecidableEq, Repr

/-- The per-scene property group LockAspectRatioProperties (lines 43-64). -/
structure LockProps where
  is_locked : Bool
  locked_ratio : ℚ
  prev_res_x : ℤ
  prev_res_y : ℤ
deriving DecidableEq, Repr

/-- The whole state the add-on touches: the property group, the render
settings, and the process-wide flag _is_internally_updating_resolution
(line 37). -/
structure SceneState where
  props : LockProps
  render : RenderSettings
  internallyUpdating : Bool
deriving DecidableEq, Repr

/-- A corrective write performed by the handler on the render settings. -/
inductive ResWrite where
  | setX (v : ℤ)
  | setY (v : ℤ)
deriving DecidableEq, Repr

/-- Store a value into render.resolution_x.  Used both for an external edit
by the user and for the corrective write at line 129. -/
def storeX (x : ℤ) (s : SceneState) : SceneState :=
  {s with render := {s.render with resolution_x := x}}

/-- Store a value into render.resolution_y.  Used both for an external edit
by the user and for the corrective write at line 124 and the forced write
at line 82. -/
def storeY (y : ℤ) (s : SceneState) : SceneState :=
  {s with render := {s.render with resolution_y := y}}

/-- Copy the current resolution into prev_res_x and prev_res_y.  This
assignment pair appears at lines 100-101, 135-136 and 85-86. -/
def withPrevRefreshed (s : SceneState) : SceneState :=
  {s with props := {s.props with
      prev_res_x := s.render.resolution_x,
      prev_res_y := s.render.resolution_y}}

/-- Lines 133-136: after the branch work, prev_res_x and prev_res_y are
refreshed from the current (possibly adjusted) render settings. -/
def rcFinish (p : SceneState × List ResWrite) : SceneState × List ResWrite :=
  (withPrevRefreshed p.1, p.2)

/-- resolution_changed (lines 89-136), parameterised by the host reaction
to an internal write: after each write the state is passed to notify,
which returns the settled state and the writes the nested dispatch made.
The plain handler uses the inert notify (fun t => (t, [])).

Faithfulness notes.  The early outs at lines 90-95 (no scene in context, no
property group attached) are host glue outside the model: the model always
has a scene with the group attached.  Line 116 assigns
_is_internally_updating_resolution without a global declaration, so in
Python it creates a function-local variable and the process-wide flag is
untouched; accordingly internallyUpdating is not modified here. -/
def resolutionChangedAux (notify : SceneState → SceneState × List ResWrite)
    (s : SceneState) : SceneState × List ResWrite :=
  if ¬ s.props.is_locked then
    -- lines 98-102: not locked, just refresh the prev values
    (withPrevRefreshed s, [])
  else
    let current_x := s.render.resolution_x
    let current_y := s.render.resolution_y
    -- lines 109-114: detect which field differs from the previous values
    if current_x = s.props.prev_res_x ∧ current_y = s.props.prev_res_y then
      (s, [])
    else
      rcFinish
        (if current_x ≠ s.props.prev_res_x then
          -- lines 119-124: user likely changed X
          if s.props.locked_ratio ≠ 0 then
            let new_y := max 1 (pyRound ((current_x : ℚ) / s.props.locked_ratio))
            if s.render.resolution_y ≠ new_y then
              ((notify (storeY new_y s)).1,
                ResWrite.setY new_y :: (notify (storeY new_y s)).2)
            else (s, [])
          else (s, [])
        else
          -- lines 125-129: user likely changed Y (reached only when Y differs)
          let new_x := max 1 (pyRound ((current_y : ℚ) * s.props.locked_ratio))
          if s.render.resolution_x ≠ new_x then
            ((notify (storeX new_x s)).1,
              ResWrite.setX new_x :: (notify (storeX new_x s)).2)
          else (s, []))

/-- One invocation of resolution_changed whose internal writes do not
re-enter the handler (the notification for the write is delivered after
this invocation finished, as Blender defers msgbus notifications). -/
def resolution_changed (s : SceneState) : SceneState × List ResWrite :=
  resolutionChangedAux (fun t => (t, [])) s

/-- resolution_changed under the synchronous re-entrancy model of the
design document: each internal write immediately re-invokes the handler on
the state right after the write, before prev_res_x and prev_res_y are
refreshed.  The fuel bounds the re-entrance depth; at depth 0 the nested
handler behaves like the plain one. -/
def resolutionChangedReent : Nat → SceneState → SceneState × List ResWrite
  | 0, s => resolution_changed s
  | n + 1, s => resolutionChangedAux (resolutionChangedReent n) s

/-- on_lock_toggle (lines 67-86).  The update callback runs after the host
has already stored the new is_locked value.  Line 70 returns early when the
process-wide flag is set.  When engaging, line 75 sets the flag, and no
statement ever resets it (the resets at lines 81 and 83 are commented out
in the source).  Lines 85-86 record the previous resolution values. -/
def on_lock_toggle (s : SceneState) : SceneState :=
  if s.internallyUpdating then s
  else
    withPrevRefreshed
      (if s.props.is_locked then
        let s' := {s with internallyUpdating := true}
        if s'.render.resolution_y ≠ 0 then
          {s' with props := {s'.props with
              locked_ratio := (s'.render.resolution_x : ℚ) / (s'.render.resolution_y : ℚ)}}
        else
          let s'' := {s' with props := {s'.props with locked_ratio := 1}}
          if s''.render.resolution_x ≠ 0 then
            storeY s''.render.resolution_x s''
          else s''
      else s)

/-- The user toggling the lock checkbox: the host stores the new value and
then fires the update callback on_lock_toggle. -/
def setLock (b : Bool) (s : SceneState) : SceneState :=
  on_lock_toggle {s with props := {s.props with is_locked := b}}

/-- An external edit of the render width (the host applies the value, then
notifies resolution_changed). -/
def extSetX (x : ℤ) (s : SceneState) : SceneState := storeX x s

/-- An external edit of the render height. -/
def extSetY (y : ℤ) (s : SceneState) : SceneState := storeY y s

/-- The try block of resolution_changed (lines 118-131) with a fallible
corrective write: when fail is true, the attempted assignment to the
render settings raises, the field keeps the value the host applied, and
the error is the thrown exception.  When no write is attempted nothing can
raise.  Mirrors the branch structure of lines 119-129. -/
def rcTryBody (fail : Bool) (s : SceneState) :
    Except String (SceneState × List ResWrite) :=
  let current_x := s.render.resolution_x
  let current_y := s.render.resolution_y
  if current_x ≠ s.props.prev_res_x then
    if s.props.locked_ratio ≠ 0 then
      let new_y := max 1 (pyRound ((current_x : ℚ) / s.props.locked_ratio))
      if s.render.resolution_y ≠ new_y then
        if fail then Except.error "exception during resolution update"
        else Except.ok (storeY new_y s, [ResWrite.setY new_y])
      else Except.ok (s, [])
    else Except.ok (s, [])
  else if current_y ≠ s.props.prev_res_y then
    let new_x := max 1 (pyRound ((current_y : ℚ) * s.props.locked_ratio))
    if s.render.resolution_x ≠ new_x then
      if fail then Except.error "exception during resolution update"
      else Except.ok (storeX new_x s, [ResWrite.setX new_x])
    else Except.ok (s, [])
  else Except.ok (s, [])

/-- resolution_changed with the fallible write: the except clause at lines
130-131 catches the exception, logs it and discards it, after which the
prev refresh at lines 135-136 still runs.  The function is total: no error
escapes to the caller. -/
def resolutionChangedExc (fail : Bool) (s : SceneState) :
    SceneState × List ResWrite :=
  if ¬ s.props.is_locked then
    (withPrevRefreshed s, [])
  else
    if s.render.resolution_x = s.props.prev_res_x
        ∧ s.render.resolution_y = s.props.prev_res_y then
      (s, [])
    else
      rcFinish
        (match rcTryBody fail s with
         | Except.ok r => r
         | Except.error _ => (s, []))

/-- The invariant that every reachable quiescent locked state satisfies:
still locked, a positive stored ratio, the recorded pair in sync with the
render settings, and the resolution pair related through the stored ratio
by the rounding of the last correction (one of the two corrected-field
equations holds). -/
def LockedQuiescent (s : SceneState) : Prop :=
  s.props.is_locked = true
  ∧ 0 < s.props.locked_ratio
  ∧ s.props.prev_res_x = s.render.resolution_x
  ∧ s.props.prev_res_y = s.render.resolution_y
  ∧ (s.render.resolution_y
        = max 1 (pyRound ((s.render.resolution_x : ℚ) / s.props.locked_ratio))
     ∨ s.render.resolution_x
        = max 1 (pyRound ((s.render.resolution_y : ℚ) * s.props.locked_ratio)))

/-- Quiescent states reachable by engaging the lock on a quiescent scene
with positive width and nonnegative height, followed by any sequence of
single-field external edits, each followed by resolution_changed running
to completion. -/
inductive ReachableLocked : SceneState → Prop where
  | engage (s : SceneState) :
      s.props.is_locked = false → s.internallyUpdating = false →
      1 ≤ s.render.resolution_x → 0 ≤ s.render.resolution_y →
      ReachableLocked (setLock true s)
  | stepX (s : SceneState) (x : ℤ) :
      ReachableLocked s → ReachableLocked (resolution_changed (extSetX x s)).1
  | stepY (s : SceneState) (y : ℤ) :
      ReachableLocked s → ReachableLocked (resolution_changed (extSetY y s)).1

/-
  Shape lemmas: one lemma per control path of resolutionChangedAux.
-/

theorem aux_unlocked (notify : SceneState → SceneState × List ResWrite)
    (s : SceneState) (h : s.props.is_locked = false) :
    resolutionChangedAux notify s = (withPrevRefreshed s, []) := by
  simp [resolutionChangedAux, h]

theorem aux_nochange (notify : SceneState → SceneState × List ResWrite)
    (s : SceneState) (hl : s.props.is_locked = true)
    (hx : s.render.resolution_x = s.props.prev_res_x)
    (hy : s.render.resolution_y = s.props.prev_res_y) :
    resolutionChangedAux notify s = (s, []) := by
  simp [resolutionChangedAux, hl, hx, hy]

theorem aux_x_ratio_zero (notify : SceneState → SceneState × List ResWrite)
    (s : SceneState) (hl : s.props.is_locked = true)
    (hx : s.render.resolution_x ≠ s.props.prev_res_x)
    (hr : s.props.locked_ratio = 0) :
    resolutionChangedAux notify s = (withPrevRefreshed s, []) := by
  simp [resolutionChangedAux, rcFinish, hl, hx, hr]

theorem aux_x_no_write (notify : SceneState → SceneState × List ResWrite)
    (s : SceneState) (hl : s.props.is_locked = true)
    (hx : s.render.resolution_x ≠ s.props.prev_res_x)
    (hr : s.props.locked_ratio ≠ 0)
    (hfix : s.render.resolution_y
      = max 1 (pyRound ((s.render.resolution_x : ℚ) / s.props.locked_ratio))) :
    resolutionChangedAux notify s = (withPrevRefreshed s, []) := by
  simp [resolutionChangedAux, rcFinish, hl, hx, hr, ← hfix]

theorem aux_x_write (notify : SceneState → SceneState × List ResWrite)
    (s : SceneState) (hl : s.props.is_locked = true)
    (hx : s.render.resolution_x ≠ s.props.prev_res_x)
    (hr : s.props.locked_ratio ≠ 0)
    (hnew : s.render.resolution_y
      ≠ max 1 (pyRound ((s.render.resolution_x : ℚ) / s.props.locked_ratio))) :
    resolutionChangedAux notify s =
      (withPrevRefreshed
        (notify (storeY (max 1 (pyRound ((s.render.resolution_x : ℚ)
            / s.props.locked_ratio))) s)).1,
       ResWrite.setY (max 1 (pyRound ((s.render.resolution_x : ℚ)
            / s.props.locked_ratio)))
         :: (notify (storeY (max 1 (pyRound ((s.render.resolution_x : ℚ)
            / s.props.locked_ratio))) s)).2) := by
  simp [resolutionChangedAux, rcFinish, hl, hx, hr, hnew]

theorem aux_y_no_write (notify : SceneState → SceneState × List ResWrite)
    (s : SceneState) (hl : s.props.is_locked = true)
    (hx : s.render.resolution_x = s.props.prev_res_x)
    (hy : s.render.resolution_y ≠ s.props.prev_res_y)
    (hfix : s.render.resolution_x
      = max 1 (pyRound ((s.render.resolution_y : ℚ) * s.props.locked_ratio))) :
    resolutionChangedAux notify s = (withPrevRefreshed s, []) := by
  unfold resolutionChangedAux rcFinish
  split_ifs <;> simp_all

theorem aux_y_write (notify : SceneState → SceneState × List ResWrite)
    (s : SceneState) (hl : s.props.is_locked = true)
    (hx : s.render.resolution_x = s.props.prev_res_x)
    (hy : s.render.resolution_y ≠ s.props.prev_res_y)
    (hnew : s.render.resolution_x
      ≠ max 1 (pyRound ((s.render.resolution_y : ℚ) * s.props.locked_ratio))) :
    resolutionChangedAux notify s =
      (withPrevRefreshed
        (notify (storeX (max 1 (pyRound ((s.render.resolution_y : ℚ)
            * s.props.locked_ratio))) s)).1,
       ResWrite.setX (max 1 (pyRound ((s.render.resolution_y : ℚ)
            * s.props.locked_ratio)))
         :: (notify (storeX (max 1 (pyRound ((s.render.resolution_y : ℚ)
            * s.props.locked_ratio))) s)).2) := by
  unfold resolutionChangedAux rcFinish
  split_ifs <;> simp_all

/-- pyRound is the identity on integers. -/
theorem pyRound_intCast (n : ℤ) : pyRound (n : ℚ) = n := by
  simp [pyRound]

/-
  Claim theorems.
-/

/-- C1: with the lock engaged at positive integer resolution (w, h), so
locked_ratio holds w / h, a notification in which only the width differs
from prev_res_x makes resolution_changed write the height to
round(w2 * h / w) clamped to a minimum of 1, where w2 is the new width,
and it performs the write only if that value differs from the current
height. -/
theorem width_edit_sets_height_to_rounded_ratio
    (s : SceneState) (w h : ℤ) (hw : 0 < w) (hh : 0 < h)
    (hlock : s.props.is_locked = true)
    (hratio : s.props.locked_ratio = (w : ℚ) / (h : ℚ))
    (hx : s.render.resolution_x ≠ s.props.prev_res_x)
    (hy : s.render.resolution_y = s.props.prev_res_y) :
    (resolution_changed s).1.render.resolution_y
        = max 1 (pyRound (((s.render.resolution_x * h : ℤ) : ℚ) / (w : ℚ)))
    ∧ (resolution_changed s).1.render.resolution_x = s.render.resolution_x
    ∧ (resolution_changed s).2
        = (if s.render.resolution_y
              = max 1 (pyRound (((s.render.resolution_x * h : ℤ) : ℚ) / (w : ℚ)))
          then []
          else [ResWrite.setY
                  (max 1 (pyRound (((s.render.resolution_x * h : ℤ) : ℚ) / (w : ℚ))))]) := by
  have hwQ : (w : ℚ) ≠ 0 := Int.cast_ne_zero.mpr hw.ne'
  have hhQ : (h : ℚ) ≠ 0 := Int.cast_ne_zero.mpr hh.ne'
  have hr0 : s.props.locked_ratio ≠ 0 := by
    rw [hratio]
    exact div_ne_zero hwQ hhQ
  have harith : (s.render.resolution_x : ℚ) / s.props.locked_ratio
      = ((s.render.resolution_x * h : ℤ) : ℚ) / (w : ℚ) := by
    rw [hratio, div_div_eq_mul_div]
    push_cast
    ring
  rw [← harith]
  by_cases hw_eq : s.render.resolution_y
      = max 1 (pyRound ((s.render.resolution_x : ℚ) / s.props.locked_ratio))
  · rw [resolution_changed, aux_x_no_write _ s hlock hx hr0 hw_eq]
    exact ⟨hw_eq, rfl, by rw [if_pos hw_eq]⟩
  · rw [resolution_changed, aux_x_write _ s hlock hx hr0 hw_eq]
    exact ⟨rfl, rfl, by rw [if_neg hw_eq]⟩

/-- Witness for C1: lock engaged at 1920 x 1080 (ratio 16/9 captured as
16 / 9), width edited to 1000; the handler computes
round(1000 * 9 / 16) = round(562.5) = 562 (ties to even). -/
theorem width_edit_sets_height_to_rounded_ratio_witness :
    ((⟨⟨true, 16/9, 1920, 1080⟩, ⟨1000, 1080⟩, false⟩ : SceneState).props.locked_ratio
        = ((16 : ℤ) : ℚ) / ((9 : ℤ) : ℚ))
    ∧ (resolution_changed
        ⟨⟨true, 16/9, 1920, 1080⟩, ⟨1000, 1080⟩, false⟩).1.render.resolution_y
        = max 1 (pyRound (((1000 * 9 : ℤ) : ℚ) / ((16 : ℤ) : ℚ)))
    ∧ max 1 (pyRound (((1000 * 9 : ℤ) : ℚ) / ((16 : ℤ) : ℚ))) = 562 :=
  ⟨by norm_num,
   (width_edit_sets_height_to_rounded_ratio
      ⟨⟨true, 16/9, 1920, 1080⟩, ⟨1000, 1080⟩, false⟩ 16 9
      (by decide) (by decide) rfl (by norm_num) (by decide) rfl).1,
   by norm_num [pyRound]⟩

/-- C2: with the lock engaged at positive integer resolution (w, h), so
locked_ratio holds w / h, a notification in which only the height differs
from prev_res_y makes resolution_changed write the width to
round(h2 * w / h) clamped to a minimum of 1, where h2 is the new height,
and it performs the write only if that value differs from the current
width. -/
theorem height_edit_sets_width_to_rounded_ratio
    (s : SceneState) (w h : ℤ) (hw : 0 < w) (hh : 0 < h)
    (hlock : s.props.is_locked = true)
    (hratio : s.props.locked_ratio = (w : ℚ) / (h : ℚ))
    (hx : s.render.resolution_x = s.props.prev_res_x)
    (hy : s.render.resolution_y ≠ s.props.prev_res_y) :
    (resolution_changed s).1.render.resolution_x
        = max 1 (pyRound (((s.render.resolution_y * w : ℤ) : ℚ) / (h : ℚ)))
    ∧ (resolution_changed s).1.render.resolution_y = s.render.resolution_y
    ∧ (resolution_changed s).2
        = (if s.render.resolution_x
              = max 1 (pyRound (((s.render.resolution_y * w : ℤ) : ℚ) / (h : ℚ)))
          then []
          else [ResWrite.setX
                  (max 1 (pyRound (((s.render.resolution_y * w : ℤ) : ℚ) / (h : ℚ))))]) := by
  have harith : (s.render.resolution_y : ℚ) * s.props.locked_ratio
      = ((s.render.resolution_y * w : ℤ) : ℚ) / (h : ℚ) := by
    rw [hratio, mul_div_assoc']
    push_cast
    ring
  rw [← harith]
  by_cases hw_eq : s.render.resolution_x
      = max 1 (pyRound ((s.render.resolution_y : ℚ) * s.props.locked_ratio))
  · rw [resolution_changed, aux_y_no_write _ s hlock hx hy hw_eq]
    exact ⟨hw_eq, rfl, by rw [if_pos hw_eq]⟩
  · rw [resolution_changed, aux_y_write _ s hlock hx hy hw_eq]
    exact ⟨rfl, rfl, by rw [if_neg hw_eq]⟩

/-- Witness for C2: lock engaged at 1920 x 1080 (ratio 16/9 captured as
16 / 9), height edited to 1000; the handler computes
round(1000 * 16 / 9) = round(1777.77...) = 1778. -/
theorem height_edit_sets_width_to_rounded_ratio_witness :
    ((⟨⟨true, 16/9, 1920, 1080⟩, ⟨1920, 1000⟩, false⟩ : SceneState).props.locked_ratio
        = ((16 : ℤ) : ℚ) / ((9 : ℤ) : ℚ))
    ∧ (resolution_changed
        ⟨⟨true, 16/9, 1920, 1080⟩, ⟨1920, 1000⟩, false⟩).1.render.resolution_x
        = max 1 (pyRound (((1000 * 16 : ℤ) : ℚ) / ((9 : ℤ) : ℚ)))
    ∧ max 1 (pyRound (((1000 * 16 : ℤ) : ℚ) / ((9 : ℤ) : ℚ))) = 1778 :=
  ⟨by norm_num,
   (height_edit_sets_width_to_rounded_ratio
      ⟨⟨true, 16/9, 1920, 1080⟩, ⟨1920, 1000⟩, false⟩ 16 9
      (by decide) (by decide) rfl (by norm_num) rfl (by decide)).1,
   by norm_num [pyRound]⟩

/-- C3: engaging the lock (on_lock_toggle running with is_locked true and
the re-entrancy flag clear): when the current height is nonzero,
locked_ratio is set to width / height; when the height is zero,
locked_ratio is set to 1 and, when the width is nonzero, the height is
forced equal to the width; afterwards prev_res_x and prev_res_y are
recorded as the post-correction width and height. -/
theorem lock_engage_captures_ratio_and_baseline
    (s : SceneState)
    (hflag : s.internallyUpdating = false)
    (hlock : s.props.is_locked = true) :
    (on_lock_toggle s).props.locked_ratio
        = (if s.render.resolution_y ≠ 0
           then (s.render.resolution_x : ℚ) / (s.render.resolution_y : ℚ)
           else 1)
    ∧ (on_lock_toggle s).render.resolution_y
        = (if s.render.resolution_y = 0 ∧ s.render.resolution_x ≠ 0
           then s.render.resolution_x
           else s.render.resolution_y)
    ∧ (on_lock_toggle s).render.resolution_x = s.render.resolution_x
    ∧ (on_lock_toggle s).props.prev_res_x = (on_lock_toggle s).render.resolution_x
    ∧ (on_lock_toggle s).props.prev_res_y = (on_lock_toggle s).render.resolution_y := by
  unfold on_lock_toggle
  rw [if_neg (by simp [hflag])]
  split_ifs <;> simp_all [withPrevRefreshed, storeY]

/-- Witness for C3: engaging the lock with width 500 and height 0 yields
ratio 1 and forces the height to 500, recorded in prev_res_y. -/
theorem lock_engage_captures_ratio_and_baseline_witness :
    (on_lock_toggle ⟨⟨true, 1, 0, 0⟩, ⟨500, 0⟩, false⟩).props.locked_ratio = 1
    ∧ (on_lock_toggle ⟨⟨true, 1, 0, 0⟩, ⟨500, 0⟩, false⟩).render.resolution_y = 500
    ∧ (on_lock_toggle ⟨⟨true, 1, 0, 0⟩, ⟨500, 0⟩, false⟩).props.prev_res_y
        = (on_lock_toggle ⟨⟨true, 1, 0, 0⟩, ⟨500, 0⟩, false⟩).render.resolution_y := by
  obtain ⟨h1, h2, h3, h4, h5⟩ := lock_engage_captures_ratio_and_baseline
      ⟨⟨true, 1, 0, 0⟩, ⟨500, 0⟩, false⟩ rfl rfl
  norm_num at h1 h2
  exact ⟨h1, h2, h5⟩

/-- C4: while locked, when a single notification shows both the width and
the height differing from the recorded pair, the handler leaves the width
exactly as given, never emits a width write, and (when the stored ratio is
nonzero) recomputes the height from the width and the stored ratio. -/
theorem simultaneous_change_adjusts_only_height
    (s : SceneState)
    (hlock : s.props.is_locked = true)
    (hx : s.render.resolution_x ≠ s.props.prev_res_x)
    (hy : s.render.resolution_y ≠ s.props.prev_res_y) :
    (resolution_changed s).1.render.resolution_x = s.render.resolution_x
    ∧ (∀ v, ResWrite.setX v ∉ (resolution_changed s).2)
    ∧ (s.props.locked_ratio ≠ 0 →
        (resolution_changed s).1.render.resolution_y
          = max 1 (pyRound ((s.render.resolution_x : ℚ) / s.props.locked_ratio))) := by
  by_cases hr : s.props.locked_ratio = 0
  · rw [resolution_changed, aux_x_ratio_zero _ s hlock hx hr]
    exact ⟨rfl, by simp, fun hc => absurd hr hc⟩
  · by_cases hw_eq : s.render.resolution_y
        = max 1 (pyRound ((s.render.resolution_x : ℚ) / s.props.locked_ratio))
    · rw [resolution_changed, aux_x_no_write _ s hlock hx hr hw_eq]
      exact ⟨rfl, by simp, fun _ => hw_eq⟩
    · rw [resolution_changed, aux_x_write _ s hlock hx hr hw_eq]
      exact ⟨rfl, by simp, fun _ => rfl⟩

/-- Witness for C4: locked with ratio 2, recorded pair (100, 50), a
notification with both fields changed to (200, 60): the width stays 200,
no width write is emitted, and the height becomes round(200 / 2) = 100. -/
theorem simultaneous_change_adjusts_only_height_witness :
    (resolution_changed ⟨⟨true, 2, 100, 50⟩, ⟨200, 60⟩, false⟩).1.render.resolution_x = 200
    ∧ (∀ v, ResWrite.setX v ∉ (resolution_changed ⟨⟨true, 2, 100, 50⟩, ⟨200, 60⟩, false⟩).2)
    ∧ (resolution_changed ⟨⟨true, 2, 100, 50⟩, ⟨200, 60⟩, false⟩).1.render.resolution_y
        = max 1 (pyRound (((200 : ℤ) : ℚ) / 2))
    ∧ max 1 (pyRound (((200 : ℤ) : ℚ) / 2)) = 100 := by
  obtain ⟨h1, h2, h3⟩ := simultaneous_change_adjusts_only_height
      ⟨⟨true, 2, 100, 50⟩, ⟨200, 60⟩, false⟩ rfl (by decide) (by decide)
  exact ⟨h1, h2, h3 (by norm_num), by norm_num [pyRound]⟩

/-- C10: while locked with locked_ratio equal to 0, the division in the
width-changed branch is guarded by the nonzero test, so when only the
width changes no corrective write occurs and the height is left unchanged;
when only the height changes, the unguarded multiply branch computes
width max(1, round(height * 0)) = 1 and writes it unless the width is
already 1. -/
theorem zero_ratio_division_guard
    (s : SceneState)
    (hlock : s.props.is_locked = true)
    (hr : s.props.locked_ratio = 0) :
    ((s.render.resolution_x ≠ s.props.prev_res_x →
        (resolution_changed s).1.render = s.render ∧ (resolution_changed s).2 = [])
    ∧ (s.render.resolution_x = s.props.prev_res_x →
        s.render.resolution_y ≠ s.props.prev_res_y →
        (resolution_changed s).1.render.resolution_x = 1
        ∧ (resolution_changed s).1.render.resolution_y = s.render.resolution_y
        ∧ (resolution_changed s).2
            = (if s.render.resolution_x = 1 then [] else [ResWrite.setX 1]))) := by
  have hnewx : max 1 (pyRound ((s.render.resolution_y : ℚ) * s.props.locked_ratio)) = 1 := by
    rw [hr, mul_zero]
    simp [pyRound]
  constructor
  · intro hx
    rw [resolution_changed, aux_x_ratio_zero _ s hlock hx hr]
    exact ⟨rfl, rfl⟩
  · intro hx hy
    by_cases h1 : s.render.resolution_x = 1
    · rw [resolution_changed, aux_y_no_write _ s hlock hx hy (by rw [hnewx]; exact h1)]
      exact ⟨h1, rfl, by rw [if_pos h1]⟩
    · rw [resolution_changed, aux_y_write _ s hlock hx hy (by rw [hnewx]; exact h1), hnewx]
      exact ⟨rfl, rfl, by rw [if_neg h1]⟩

/-- Witness for C10: locked with ratio 0 and recorded pair (100, 50).  A
pure width edit to 130 produces no write; a pure height edit to 60 writes
width 1 and leaves the height at 60. -/
theorem zero_ratio_division_guard_witness :
    ((resolution_changed ⟨⟨true, 0, 100, 50⟩, ⟨130, 50⟩, false⟩).1.render
        = ({resolution_x := 130, resolution_y := 50} : RenderSettings)
    ∧ (resolution_changed ⟨⟨true, 0, 100, 50⟩, ⟨130, 50⟩, false⟩).2 = [])
    ∧ (resolution_changed ⟨⟨true, 0, 100, 50⟩, ⟨100, 60⟩, false⟩).1.render.resolution_x = 1
    ∧ (resolution_changed ⟨⟨true, 0, 100, 50⟩, ⟨100, 60⟩, false⟩).1.render.resolution_y = 60
    ∧ (resolution_changed ⟨⟨true, 0, 100, 50⟩, ⟨100, 60⟩, false⟩).2 = [ResWrite.setX 1] := by
  have ha := (zero_ratio_division_guard ⟨⟨true, 0, 100, 50⟩, ⟨130, 50⟩, false⟩ rfl rfl).1
      (by decide)
  have hb := (zero_ratio_division_guard ⟨⟨true, 0, 100, 50⟩, ⟨100, 60⟩, false⟩ rfl rfl).2
      rfl (by decide)
  refine ⟨⟨ha.1, ha.2⟩, hb.1, hb.2.1, ?_⟩
  rw [hb.2.2, if_neg (by decide)]

/-- C5 (code bug): after engaging the lock once at 1920 x 1080, toggling
the lock off and editing the width to 1000 leaves the height at 1080 with
no corrective write — but re-engaging the lock does not recompute
locked_ratio from the new pair (1000, 1080): on_lock_toggle returns early
because the process-wide flag set at the first engage was never cleared,
so the ratio stays 1920 / 1080 = 16/9. -/
theorem stale_flag_blocks_ratio_recompute_on_reengage :
    ((resolution_changed (extSetX 1000 (setLock false
        (setLock true ⟨⟨false, 1, 0, 0⟩, ⟨1920, 1080⟩, false⟩)))).1.render.resolution_y
      = 1080)
    ∧ ((resolution_changed (extSetX 1000 (setLock false
        (setLock true ⟨⟨false, 1, 0, 0⟩, ⟨1920, 1080⟩, false⟩)))).2 = [])
    ∧ ((setLock true (resolution_changed (extSetX 1000 (setLock false
        (setLock true ⟨⟨false, 1, 0, 0⟩, ⟨1920, 1080⟩, false⟩)))).1).props.is_locked
      = true)
    ∧ ((setLock true (resolution_changed (extSetX 1000 (setLock false
        (setLock true ⟨⟨false, 1, 0, 0⟩, ⟨1920, 1080⟩, false⟩)))).1).props.locked_ratio
      = 16/9)
    ∧ ((setLock true (resolution_changed (extSetX 1000 (setLock false
        (setLock true ⟨⟨false, 1, 0, 0⟩, ⟨1920, 1080⟩, false⟩)))).1).props.locked_ratio
      ≠ ((1000 : ℤ) : ℚ) / ((1080 : ℤ) : ℚ)) := by
  norm_num [setLock, on_lock_toggle, extSetX, storeX, storeY, resolution_changed,
    resolutionChangedAux, rcFinish, withPrevRefreshed, pyRound]

/-- C6 (code bug): engaging the lock with a forced height write leaves the
process-wide flag _is_internally_updating_resolution set after the
callback returns (it is never cleared), and resolution_changed never
touches the process-wide flag at all (line 116 binds a function-local
variable), even when it performs a corrective write. -/
theorem internal_flag_set_but_never_cleared :
    (on_lock_toggle ⟨⟨true, 1, 0, 0⟩, ⟨500, 0⟩, false⟩).internallyUpdating = true
    ∧ (∀ s : SceneState,
        (resolution_changed s).1.internallyUpdating = s.internallyUpdating)
    ∧ (resolution_changed ⟨⟨true, 2, 100, 50⟩, ⟨200, 50⟩, false⟩).2
        = [ResWrite.setY 100]
    ∧ (resolution_changed
        ⟨⟨true, 2, 100, 50⟩, ⟨200, 50⟩, false⟩).1.internallyUpdating = false := by
  refine ⟨by norm_num [on_lock_toggle, withPrevRefreshed, storeY], ?_, ?_, ?_⟩
  · intro s
    rw [resolution_changed]
    simp only [resolutionChangedAux, rcFinish]
    split_ifs <;> simp [withPrevRefreshed, storeX, storeY]
  · norm_num [resolution_changed, resolutionChangedAux, rcFinish, withPrevRefreshed,
      storeY, pyRound]
  · norm_num [resolution_changed, resolutionChangedAux, rcFinish, withPrevRefreshed,
      storeY, pyRound]

/-- C7: any exception raised by the corrective write inside
resolution_changed is caught at the handler boundary and discarded: the
handler with a failing write still returns normally (it is a total
function into a state, never an error), it leaves the resolution fields in
the state the host already applied, performs no retry (no recorded write),
keeps the lock state and ratio, and still refreshes the recorded pair;
with a non-failing write it coincides with the plain handler. -/
theorem write_error_swallowed_and_state_preserved :
    ∀ s : SceneState,
      resolutionChangedExc false s = resolution_changed s
      ∧ (resolutionChangedExc true s).1.render = s.render
      ∧ (resolutionChangedExc true s).2 = []
      ∧ (resolutionChangedExc true s).1.props.prev_res_x = s.render.resolution_x
      ∧ (resolutionChangedExc true s).1.props.prev_res_y = s.render.resolution_y
      ∧ (resolutionChangedExc true s).1.props.is_locked = s.props.is_locked
      ∧ (resolutionChangedExc true s).1.props.locked_ratio = s.props.locked_ratio
      ∧ (resolutionChangedExc true s).1.internallyUpdating = s.internallyUpdating := by
  intro s
  simp only [resolutionChangedExc, rcTryBody, resolution_changed,
    resolutionChangedAux, rcFinish]
  split_ifs <;> simp_all [withPrevRefreshed, storeX, storeY]

theorem lockedQuiescent_engage (s : SceneState)
    (hl : s.props.is_locked = false) (hf : s.internallyUpdating = false)
    (hx : 1 ≤ s.render.resolution_x) (hy : 0 ≤ s.render.resolution_y) :
    LockedQuiescent (setLock true s) := by
  unfold setLock on_lock_toggle LockedQuiescent
  rw [if_neg (by simp [hf])]
  by_cases hy0 : s.render.resolution_y = 0
  · have hx0 : s.render.resolution_x ≠ 0 := by omega
    simp only [withPrevRefreshed, storeY, hy0, hx0]
    simp [hx0, hy0]
    rw [pyRound_intCast]
    omega
  · have hy1 : 0 < s.render.resolution_y := by omega
    simp only [withPrevRefreshed, storeY]
    simp [hy0]
    have hyQ : ((s.render.resolution_y : ℚ)) ≠ 0 := by exact_mod_cast hy0
    refine ⟨div_pos (by exact_mod_cast (by omega : (0:ℤ) < s.render.resolution_x))
      (by exact_mod_cast hy1), Or.inr ?_⟩
    rw [← mul_div_assoc, mul_div_cancel_left₀ _ hyQ, pyRound_intCast]
    omega

theorem lockedQuiescent_stepX (s : SceneState) (x : ℤ)
    (h : LockedQuiescent s) :
    LockedQuiescent (resolution_changed (extSetX x s)).1 := by
  obtain ⟨hl, hr, hpx, hpy, hrel⟩ := h
  by_cases hxx : x = s.props.prev_res_x
  · rw [resolution_changed, aux_nochange _ (extSetX x s) hl
      (by simpa [extSetX, storeX] using hxx) (by simpa [extSetX, storeX] using hpy.symm)]
    have hxs : x = s.render.resolution_x := hxx.trans hpx
    exact ⟨hl, hr, by simpa [extSetX, storeX] using hpx.trans hxs.symm,
      by simpa [extSetX, storeX] using hpy,
      by simpa [extSetX, storeX, hxs] using hrel⟩
  · have hcx : (extSetX x s).render.resolution_x ≠ (extSetX x s).props.prev_res_x := by
      simpa [extSetX, storeX] using hxx
    have hr0 : (extSetX x s).props.locked_ratio ≠ 0 := ne_of_gt hr
    by_cases hfix : (extSetX x s).render.resolution_y
        = max 1 (pyRound (((extSetX x s).render.resolution_x : ℚ)
            / (extSetX x s).props.locked_ratio))
    · rw [resolution_changed, aux_x_no_write _ (extSetX x s) hl hcx hr0 hfix]
      exact ⟨hl, hr, rfl, rfl, Or.inl hfix⟩
    · rw [resolution_changed, aux_x_write _ (extSetX x s) hl hcx hr0 hfix]
      exact ⟨hl, hr, rfl, rfl, Or.inl rfl⟩

theorem lockedQuiescent_stepY (s : SceneState) (y : ℤ)
    (h : LockedQuiescent s) :
    LockedQuiescent (resolution_changed (extSetY y s)).1 := by
  obtain ⟨hl, hr, hpx, hpy, hrel⟩ := h
  by_cases hyy : y = s.props.prev_res_y
  · rw [resolution_changed, aux_nochange _ (extSetY y s) hl
      (by simpa [extSetY, storeY] using hpx.symm) (by simpa [extSetY, storeY] using hyy)]
    have hys : y = s.render.resolution_y := hyy.trans hpy
    exact ⟨hl, hr, by simpa [extSetY, storeY] using hpx,
      by simpa [extSetY, storeY] using hpy.trans hys.symm,
      by simpa [extSetY, storeY, hys] using hrel⟩
  · have hx' : (extSetY y s).render.resolution_x = (extSetY y s).props.prev_res_x := by
      simpa [extSetY, storeY] using hpx.symm
    have hy' : (extSetY y s).render.resolution_y ≠ (extSetY y s).props.prev_res_y := by
      simpa [extSetY, storeY] using hyy
    by_cases hfix : (extSetY y s).render.resolution_x
        = max 1 (pyRound (((extSetY y s).render.resolution_y : ℚ)
            * (extSetY y s).props.locked_ratio))
    · rw [resolution_changed, aux_y_no_write _ (extSetY y s) hl hx' hy' hfix]
      exact ⟨hl, hr, rfl, rfl, Or.inr hfix⟩
    · rw [resolution_changed, aux_y_write _ (extSetY y s) hl hx' hy' hfix]
      exact ⟨hl, hr, rfl, rfl, Or.inr rfl⟩

/-- C8 (amended): in every reachable quiescent state (lock engaged on a
quiescent scene with positive width, then any sequence of single-field
external edits each followed by resolution_changed running to completion)
the lock is still engaged, the stored ratio is positive, and the
resolution pair satisfies the rounded relation of the last correction:
height = max(1, round(width / ratio)) or width = max(1, round(height *
ratio)).  The deviation of round(width / ratio) from height is therefore
exactly the rounding of the last correction; exact equality can fail by
more than one (see the counterexample). -/
theorem reachable_locked_states_relate_resolution_by_ratio
    (s : SceneState) (h : ReachableLocked s) :
    s.props.is_locked = true
    ∧ 0 < s.props.locked_ratio
    ∧ (s.render.resolution_y
          = max 1 (pyRound ((s.render.resolution_x : ℚ) / s.props.locked_ratio))
       ∨ s.render.resolution_x
          = max 1 (pyRound ((s.render.resolution_y : ℚ) * s.props.locked_ratio))) := by
  have hq : LockedQuiescent s := by
    induction h with
    | engage s hl hf hx hy => exact lockedQuiescent_engage s hl hf hx hy
    | stepX s x _ ih => exact lockedQuiescent_stepX s x ih
    | stepY s y _ ih => exact lockedQuiescent_stepY s y ih
  exact ⟨hq.1, hq.2.1, hq.2.2.2.2⟩

/-- Witness for C8: the state reached by engaging the lock at 1920 x 1080
is reachable and satisfies the rounded ratio relation. -/
theorem reachable_locked_states_relate_resolution_by_ratio_witness :
    ((⟨⟨false, 1, 0, 0⟩, ⟨1920, 1080⟩, false⟩ : SceneState).props.is_locked = false)
    ∧ ((setLock true ⟨⟨false, 1, 0, 0⟩, ⟨1920, 1080⟩, false⟩).props.is_locked = true
      ∧ 0 < (setLock true ⟨⟨false, 1, 0, 0⟩, ⟨1920, 1080⟩, false⟩).props.locked_ratio
      ∧ ((setLock true ⟨⟨false, 1, 0, 0⟩, ⟨1920, 1080⟩, false⟩).render.resolution_y
            = max 1 (pyRound
                (((setLock true ⟨⟨false, 1, 0, 0⟩, ⟨1920, 1080⟩, false⟩).render.resolution_x : ℚ)
                  / (setLock true ⟨⟨false, 1, 0, 0⟩, ⟨1920, 1080⟩, false⟩).props.locked_ratio))
         ∨ (setLock true ⟨⟨false, 1, 0, 0⟩, ⟨1920, 1080⟩, false⟩).render.resolution_x
            = max 1 (pyRound
                (((setLock true ⟨⟨false, 1, 0, 0⟩, ⟨1920, 1080⟩, false⟩).render.resolution_y : ℚ)
                  * (setLock true ⟨⟨false, 1, 0, 0⟩, ⟨1920, 1080⟩, false⟩).props.locked_ratio)))) :=
  ⟨rfl, reachable_locked_states_relate_resolution_by_ratio _
    (ReachableLocked.engage ⟨⟨false, 1, 0, 0⟩, ⟨1920, 1080⟩, false⟩ rfl rfl
      (by decide) (by decide))⟩

/-- Counterexample for C8 as literally stated: engage the lock at 1 x 10
(ratio 1/10), then edit the height to 13.  The handler recomputes width
max(1, round(13 / 10)) = 1, equal to the current width, so no write
occurs; in the resulting quiescent state round(width / ratio) = 10 while
height = 13, so the relation round(width / ratio) == height fails, and by
3, beyond any single rounding step. -/
theorem rounded_ratio_relation_exact_equality_fails :
    ((resolution_changed (extSetY 13 (setLock true
        ⟨⟨false, 1, 0, 0⟩, ⟨1, 10⟩, false⟩))).1.props.is_locked = true)
    ∧ ((resolution_changed (extSetY 13 (setLock true
        ⟨⟨false, 1, 0, 0⟩, ⟨1, 10⟩, false⟩))).1.props.locked_ratio = 1/10)
    ∧ ((resolution_changed (extSetY 13 (setLock true
        ⟨⟨false, 1, 0, 0⟩, ⟨1, 10⟩, false⟩))).1.render.resolution_x = 1)
    ∧ ((resolution_changed (extSetY 13 (setLock true
        ⟨⟨false, 1, 0, 0⟩, ⟨1, 10⟩, false⟩))).1.render.resolution_y = 13)
    ∧ pyRound (((1 : ℤ) : ℚ) / (1/10 : ℚ)) = 10
    ∧ (10 : ℤ) ≠ 13 := by
  norm_num [setLock, on_lock_toggle, extSetY, storeY, resolution_changed,
    resolutionChangedAux, rcFinish, withPrevRefreshed, pyRound]

theorem reent_x_branch_settled (n : Nat) (t : SceneState)
    (hl : t.props.is_locked = true)
    (hcx : t.render.resolution_x ≠ t.props.prev_res_x)
    (hr : t.props.locked_ratio ≠ 0)
    (hfix : t.render.resolution_y
      = max 1 (pyRound ((t.render.resolution_x : ℚ) / t.props.locked_ratio))) :
    resolutionChangedReent n t = (withPrevRefreshed t, []) := by
  cases n with
  | zero =>
      simp only [resolutionChangedReent, resolution_changed]
      rw [aux_x_no_write _ t hl hcx hr hfix]
  | succ n =>
      simp only [resolutionChangedReent]
      rw [aux_x_no_write _ t hl hcx hr hfix]

theorem reent_x_branch_write_bound (n : Nat) (t : SceneState)
    (hl : t.props.is_locked = true)
    (hcx : t.render.resolution_x ≠ t.props.prev_res_x) :
    (resolutionChangedReent n t).2.length ≤ 1 := by
  by_cases hr : t.props.locked_ratio = 0
  · cases n <;>
      simp [resolutionChangedReent, resolution_changed,
        aux_x_ratio_zero _ t hl hcx hr]
  · by_cases hfix : t.render.resolution_y
        = max 1 (pyRound ((t.render.resolution_x : ℚ) / t.props.locked_ratio))
    · cases n <;>
        simp [resolutionChangedReent, resolution_changed,
          aux_x_no_write _ t hl hcx hr hfix]
    · cases n with
      | zero =>
          simp only [resolutionChangedReent, resolution_changed]
          rw [aux_x_write _ t hl hcx hr hfix]
          simp
      | succ n =>
          simp only [resolutionChangedReent]
          rw [aux_x_write (resolutionChangedReent n) t hl hcx hr hfix]
          have hsettled := reent_x_branch_settled n
            (storeY (max 1 (pyRound ((t.render.resolution_x : ℚ)
              / t.props.locked_ratio))) t) hl hcx hr rfl
          simp [hsettled]

/-- C9 (amended): while locked and quiescent (the recorded pair matches
the render settings), under the synchronous re-entrancy model at any
depth: a single external width edit causes at most one corrective write
(the re-entrant invocation triggered by that write performs no further
write); a single external height edit causes at most two writes — the
corrective width write, whose re-entrant invocation may itself rewrite the
height once because the width now differs from the recorded pair and X
has priority, after which everything is settled; a notification with no
change performs no write at all. -/
theorem reentrant_handler_write_bounds
    (n : Nat) (s : SceneState) (x y : ℤ)
    (hl : s.props.is_locked = true)
    (hqx : s.props.prev_res_x = s.render.resolution_x)
    (hqy : s.props.prev_res_y = s.render.resolution_y) :
    (resolutionChangedReent n (extSetX x s)).2.length ≤ 1
    ∧ (resolutionChangedReent n (extSetY y s)).2.length ≤ 2
    ∧ (resolutionChangedReent n s).2 = [] := by
  refine ⟨?_, ?_, ?_⟩
  · by_cases hxx : x = s.props.prev_res_x
    · have hcx : (extSetX x s).render.resolution_x = (extSetX x s).props.prev_res_x := by
        simpa [extSetX, storeX] using hxx
      have hcy : (extSetX x s).render.resolution_y = (extSetX x s).props.prev_res_y := by
        simpa [extSetX, storeX] using hqy.symm
      cases n <;>
        simp [resolutionChangedReent, resolution_changed,
          aux_nochange _ (extSetX x s) hl hcx hcy]
    · exact reent_x_branch_write_bound n (extSetX x s) hl (by simpa [extSetX, storeX] using hxx)
  · by_cases hyy : y = s.props.prev_res_y
    · have hcx : (extSetY y s).render.resolution_x = (extSetY y s).props.prev_res_x := by
        simpa [extSetY, storeY] using hqx.symm
      have hcy : (extSetY y s).render.resolution_y = (extSetY y s).props.prev_res_y := by
        simpa [extSetY, storeY] using hyy
      cases n <;>
        simp [resolutionChangedReent, resolution_changed,
          aux_nochange _ (extSetY y s) hl hcx hcy]
    · have hx' : (extSetY y s).render.resolution_x = (extSetY y s).props.prev_res_x := by
        simpa [extSetY, storeY] using hqx.symm
      have hy' : (extSetY y s).render.resolution_y ≠ (extSetY y s).props.prev_res_y := by
        simpa [extSetY, storeY] using hyy
      by_cases hfix : (extSetY y s).render.resolution_x
          = max 1 (pyRound (((extSetY y s).render.resolution_y : ℚ)
              * (extSetY y s).props.locked_ratio))
      · cases n <;>
          simp [resolutionChangedReent, resolution_changed,
            aux_y_no_write _ (extSetY y s) hl hx' hy' hfix]
      · cases n with
        | zero =>
            simp only [resolutionChangedReent, resolution_changed]
            rw [aux_y_write _ (extSetY y s) hl hx' hy' hfix]
            simp
        | succ n =>
            simp only [resolutionChangedReent]
            rw [aux_y_write (resolutionChangedReent n) (extSetY y s) hl hx' hy' hfix]
            have hcx2 : (storeX (max 1 (pyRound (((extSetY y s).render.resolution_y : ℚ)
                * (extSetY y s).props.locked_ratio))) (extSetY y s)).render.resolution_x
                ≠ (storeX (max 1 (pyRound (((extSetY y s).render.resolution_y : ℚ)
                * (extSetY y s).props.locked_ratio))) (extSetY y s)).props.prev_res_x := by
              simp only [storeX]
              intro hcontra
              exact hfix (hx'.symm ▸ hcontra ▸ rfl)
            have hb := reent_x_branch_write_bound n
              (storeX (max 1 (pyRound (((extSetY y s).render.resolution_y : ℚ)
                * (extSetY y s).props.locked_ratio))) (extSetY y s)) hl hcx2
            simp only [List.length_cons]
            omega
  · cases n <;>
      simp [resolutionChangedReent, resolution_changed,
        aux_nochange _ s hl hqx.symm hqy.symm]

/-- Witness for C9 (amended): locked quiescent state with ratio 1/10 and
pair (5, 50); the bounds hold at re-entrance depth 2 for a width edit to
7, a height edit to 94, and a no-change notification. -/
theorem reentrant_handler_write_bounds_witness :
    ((⟨⟨true, 1/10, 5, 50⟩, ⟨5, 50⟩, true⟩ : SceneState).props.prev_res_x
        = (⟨⟨true, 1/10, 5, 50⟩, ⟨5, 50⟩, true⟩ : SceneState).render.resolution_x)
    ∧ ((resolutionChangedReent 2 (extSetX 7
          ⟨⟨true, 1/10, 5, 50⟩, ⟨5, 50⟩, true⟩)).2.length ≤ 1
      ∧ (resolutionChangedReent 2 (extSetY 94
          ⟨⟨true, 1/10, 5, 50⟩, ⟨5, 50⟩, true⟩)).2.length ≤ 2
      ∧ (resolutionChangedReent 2 ⟨⟨true, 1/10, 5, 50⟩, ⟨5, 50⟩, true⟩).2 = []) :=
  ⟨rfl, reentrant_handler_write_bounds 2 ⟨⟨true, 1/10, 5, 50⟩, ⟨5, 50⟩, true⟩ 7 94
    rfl rfl rfl⟩

/-- Counterexample for C9 as literally stated: engage the lock at 5 x 50
(ratio 1/10) and edit the height to 94.  Under the synchronous
re-entrancy model the handler writes width round(94 / 10) = 9, and the
re-entrant invocation then sees the width differing from the recorded
pair (X priority) and performs a second corrective write, height
round(9 * 10) = 90 — two corrective writes for one external edit, and the
re-entrant invocation did write. -/
theorem reentrant_height_edit_performs_two_writes :
    (resolutionChangedReent 2 (extSetY 94 (setLock true
        ⟨⟨false, 1, 0, 0⟩, ⟨5, 50⟩, false⟩))).2
      = [ResWrite.setX 9, ResWrite.setY 90] := by
  norm_num [setLock, on_lock_toggle, extSetY, extSetX, storeX, storeY,
    resolutionChangedReent, resolution_changed, resolutionChangedAux, rcFinish,
    withPrevRefreshed, pyRound]

/-- Witness for C7: locked state with ratio 2, recorded pair (100, 50),
width edited to 200: with the failing write the handler still returns,
leaves the render settings exactly as the host applied them, and records
no write. -/
theorem write_error_swallowed_and_state_preserved_witness :
    (resolutionChangedExc true ⟨⟨true, 2, 100, 50⟩, ⟨200, 50⟩, false⟩).1.render
        = ({resolution_x := 200, resolution_y := 50} : RenderSettings)
    ∧ (resolutionChangedExc true ⟨⟨true, 2, 100, 50⟩, ⟨200, 50⟩, false⟩).2 = [] :=
  ⟨(write_error_swallowed_and_state_preserved
      ⟨⟨true, 2, 100, 50⟩, ⟨200, 50⟩, false⟩).2.1,
   (write_error_swallowed_and_state_preserved
      ⟨⟨true, 2, 100, 50⟩, ⟨200, 50⟩, false⟩).2.2.1⟩
